import Mathlib

/-!
Shallow embedding of the WebRTC `VideoStreamEncoderResourceManager`
(`video/adaptation/video_stream_encoder_resource_manager.h`).

The repository snapshot holds only the class header: declarations, member
comments and field documentation. The method bodies live in the
corresponding `.cc` translation unit, which is absent, so the executable
behaviour is modelled from the specification's words (each such definition
carries a doc comment starting `Modelled from the spec:`). Machine integers
are modelled as `Int`/`Nat`; counter arithmetic in the C++ uses plain `int`
and the values involved (small adaptation step counts) never approach the
representation bounds, so no wrap-around modelling is needed.
-/

namespace Webrtc

/-- `VideoAdaptationReason`: enum with the two reasons, CPU and quality
(`api/video/video_adaptation_reason.h`, used throughout the header). -/
inductive VideoAdaptationReason where
  | kCpu
  | kQuality
deriving DecidableEq

/-- `VideoAdaptationCounters`: an ordered pair of adaptation counts,
resolution reductions and frame-rate reductions
(`api/video/video_adaptation_counters.h`). Components are `Int` so that the
intermediate deltas of the bookkeeping algorithm, which can be negative,
are representable; the data model states the stored values are always
non-negative. -/
structure VideoAdaptationCounters where
  resolution_adaptations : Int
  fps_adaptations : Int
deriving DecidableEq

/-- Sum of the two components, the total used to compare counters. -/
def VideoAdaptationCounters.Total (c : VideoAdaptationCounters) : Int :=
  c.resolution_adaptations + c.fps_adaptations

/-- `VideoSourceRestrictions`: externally applied caps on pixel count and
frame rate; the manager mirrors it wholesale on notification. -/
structure VideoSourceRestrictions where
  max_pixels_per_frame : Option Nat
  max_frame_rate : Option Nat
deriving DecidableEq

/-- `VideoStreamInputState`: the slice of input state the constraints read,
namely the last input frame size in pixels (absent before the first frame)
and the input frame rate. -/
structure VideoStreamInputState where
  frame_size_pixels : Option Nat
  frames_per_second : Nat
deriving DecidableEq

/-- Modelled from the spec: the body of the static
`VideoStreamEncoderResourceManager::OnAdaptationCountChanged` is not in the
header. Per spec section 4.4 it takes the new globally applied counters and
the previous per-reason counters (the causing reason's `active_count` and
the other reason's `other_active`), and produces updated per-reason
counters whose sum equals the new total, attributing the entire delta to
the causing reason; a component of the causing reason's count that would
become negative is clamped to zero and the remainder attributed to the
other reason. The clamp is applied per component. The function is a pure
total transform (the C++ writes through its two out-parameters); here it
returns the pair (updated active count, updated other count). -/
def OnAdaptationCountChanged (adaptation_count active_count other_active :
    VideoAdaptationCounters) :
    VideoAdaptationCounters × VideoAdaptationCounters :=
  let deltaRes := adaptation_count.resolution_adaptations -
    (active_count.resolution_adaptations + other_active.resolution_adaptations)
  let deltaFps := adaptation_count.fps_adaptations -
    (active_count.fps_adaptations + other_active.fps_adaptations)
  let aRes := active_count.resolution_adaptations + deltaRes
  let aFps := active_count.fps_adaptations + deltaFps
  (⟨max aRes 0, max aFps 0⟩,
   ⟨other_active.resolution_adaptations + min aRes 0,
    other_active.fps_adaptations + min aFps 0⟩)

/-- A `Resource` is an opaque handle with identity; we model handles as
natural-number identities. -/
abbrev ResourceId := Nat

/-- Linear search of the `resources_` vector for the entry holding the
given resource, as the C++ does with `find_if` over
`std::vector<ResourceAndReason>`; returns the first mapped reason. -/
def findReason : List (ResourceId × VideoAdaptationReason) → ResourceId →
    Option VideoAdaptationReason
  | [], _ => none
  | (k, v) :: rest, r => if k = r then some v else findReason rest r

/-- Modelled from the spec: the body of
`VideoStreamEncoderResourceManager::GetReasonFromResource` is not in the
header. Per spec section 4.1 it returns the mapped reason, or the defined
default reason (CPU) if the resource is unmapped; an unmapped resource must
not cause a failure. -/
def GetReasonFromResource
    (resources_ : List (ResourceId × VideoAdaptationReason))
    (resource : ResourceId) : VideoAdaptationReason :=
  (findReason resources_ resource).getD VideoAdaptationReason.kCpu

/-- The error taxonomy's contract-violation class (spec section 7):
fatal programmer error, surfaced immediately. -/
inductive ContractViolation where
  | invalidArgument
deriving DecidableEq

/-- Modelled from the spec: the body of
`VideoStreamEncoderResourceManager::MapResourceToReason` is not in the
header. Per spec sections 4.1 and 7 it registers the mapping, and calling
it twice for the same resource with a different reason is a contract
violation failing with an invalid-argument error. A repeat call with the
same reason leaves the registered mapping as it is. -/
def MapResourceToReason
    (resources_ : List (ResourceId × VideoAdaptationReason))
    (resource : ResourceId) (reason : VideoAdaptationReason) :
    Except ContractViolation (List (ResourceId × VideoAdaptationReason)) :=
  match findReason resources_ resource with
  | some existing =>
    if existing = reason then Except.ok resources_
    else Except.error ContractViolation.invalidArgument
  | none => Except.ok (resources_ ++ [(resource, reason)])

/-- The manager state that restriction-update notifications touch: the
resource-to-reason registry, the mirrored restrictions and the per-reason
active-counts table (`active_counts_`, one `VideoAdaptationCounters` per
reason). -/
structure ManagerState where
  resources_ : List (ResourceId × VideoAdaptationReason)
  video_source_restrictions_ : VideoSourceRestrictions
  active_cpu : VideoAdaptationCounters
  active_quality : VideoAdaptationCounters
deriving DecidableEq

/-- The manager before any notification: no restrictions mirrored and every
entry of the active-counts table zero. -/
def initialManagerState
    (resources_ : List (ResourceId × VideoAdaptationReason)) :
    ManagerState :=
  { resources_ := resources_
    video_source_restrictions_ := ⟨none, none⟩
    active_cpu := ⟨0, 0⟩
    active_quality := ⟨0, 0⟩ }

/-- A restriction-update notification from the external adaptation
processor: the new restrictions, the new total adaptation counters, and the
causing resource. -/
structure RestrictionsUpdate where
  restrictions : VideoSourceRestrictions
  adaptation_counters : VideoAdaptationCounters
  reason_resource : ResourceId
deriving DecidableEq

/-- Modelled from the spec: the body of
`VideoStreamEncoderResourceManager::OnVideoSourceRestrictionsUpdated` is
not in the header. Per spec section 4.1 and the header comment it mirrors
the new restrictions into `video_source_restrictions_` and recomputes the
active-counts table with the section 4.4 algorithm, where the causing
reason is obtained from the causing resource via `GetReasonFromResource`
and the table entry for the causing reason is the `active_count`, the other
entry the `other_active`. -/
def OnVideoSourceRestrictionsUpdated (st : ManagerState)
    (u : RestrictionsUpdate) : ManagerState :=
  match GetReasonFromResource st.resources_ u.reason_resource with
  | VideoAdaptationReason.kCpu =>
    let p := OnAdaptationCountChanged u.adaptation_counters st.active_cpu
      st.active_quality
    { st with
      video_source_restrictions_ := u.restrictions
      active_cpu := p.1
      active_quality := p.2 }
  | VideoAdaptationReason.kQuality =>
    let p := OnAdaptationCountChanged u.adaptation_counters
      st.active_quality st.active_cpu
    { st with
      video_source_restrictions_ := u.restrictions
      active_cpu := p.2
      active_quality := p.1 }

/-- The states of the Initial Frame Dropper state machine
(spec section 4.5): DROPPING, NOT_DROPPING, and the constant DISABLED path
taken when the encoder is hardware-accelerated and quality-scaling
incapable. -/
inductive InitialFrameDropperState where
  | DROPPING
  | NOT_DROPPING
  | DISABLED
deriving DecidableEq

/-- The pipeline events forwarded to the Initial Frame Dropper. The
reevaluation events `OnEncodeCompleted` and `OnFrameDropped` carry the
outcome of the sufficiency check (current bitrate sufficient for the
last-known input frame size, or resolution already reduced enough) as a
boolean, since the check reads environment values outside the dropper. -/
inductive DropperEvent where
  | onEncodeCompleted (sufficient : Bool)
  | onFrameDropped (sufficient : Bool)
  | onFrameDroppedDueToSize
  | onMaybeEncodeFrame
deriving DecidableEq

/-- Modelled from the spec: the inner class
`VideoStreamEncoderResourceManager::InitialFrameDropper` is only forward
declared in the header. Per spec section 4.5, on each `OnEncodeCompleted`
or `OnFrameDropped` event the dropper reevaluates sufficiency and, once
sufficient, transitions from DROPPING to NOT_DROPPING; NOT_DROPPING is
terminal for the stream's lifetime, and DISABLED is constant. The other
pipeline events never leave DROPPING. -/
def dropperStep (s : InitialFrameDropperState) (e : DropperEvent) :
    InitialFrameDropperState :=
  match s with
  | InitialFrameDropperState.DISABLED => InitialFrameDropperState.DISABLED
  | InitialFrameDropperState.NOT_DROPPING =>
    InitialFrameDropperState.NOT_DROPPING
  | InitialFrameDropperState.DROPPING =>
    match e with
    | DropperEvent.onEncodeCompleted sufficient =>
      if sufficient then InitialFrameDropperState.NOT_DROPPING
      else InitialFrameDropperState.DROPPING
    | DropperEvent.onFrameDropped sufficient =>
      if sufficient then InitialFrameDropperState.NOT_DROPPING
      else InitialFrameDropperState.DROPPING
    | DropperEvent.onFrameDroppedDueToSize =>
      InitialFrameDropperState.DROPPING
    | DropperEvent.onMaybeEncodeFrame => InitialFrameDropperState.DROPPING

/-- Modelled from the spec: the body of
`VideoStreamEncoderResourceManager::DropInitialFrames` is not in the
header. Per spec section 4.5, it returns true iff the dropper state is
DROPPING. -/
def DropInitialFrames (s : InitialFrameDropperState) : Bool :=
  s = InitialFrameDropperState.DROPPING

/-- The slice of manager state the quality rampup experiment touches: the
`quality_rampup_done_` latch (initially false) and the number of full
restriction resets requested from the external processor so far. -/
structure RampupState where
  quality_rampup_done_ : Bool
  reset_requests : Nat
deriving DecidableEq

/-- The rampup latch starts false and no reset has been requested. -/
def initialRampupState : RampupState := ⟨false, 0⟩

/-- The trigger condition of one evaluation of the rampup experiment, as
observed at that moment: the experiment is enabled, the elapsed call time
exceeds the configured minimum duration, and the estimated available
bitrate exceeds the target bitrate by the configured margin. -/
structure RampupCondition where
  experiment_enabled : Bool
  min_duration_passed : Bool
  bwe_exceeds_target_by_margin : Bool
deriving DecidableEq

/-- Modelled from the spec: the body of
`VideoStreamEncoderResourceManager::MaybePerformQualityRampupExperiment` is
not in the header. Per spec section 4.6, on each evaluation, if the latch
is not yet set and the whole trigger condition holds, it sets
`quality_rampup_done_` to true first and then requests a one-time full
restriction reset from the external processor (counted here in
`reset_requests`); otherwise it does nothing. -/
def MaybePerformQualityRampupExperiment (st : RampupState)
    (c : RampupCondition) : RampupState :=
  if st.quality_rampup_done_ then st
  else if c.experiment_enabled && c.min_duration_passed &&
      c.bwe_exceeds_target_by_margin then
    { quality_rampup_done_ := true, reset_requests := st.reset_requests + 1 }
  else st

/-- Did the restriction change from before to after increase the allowed
resolution? True when the pixel cap grew or was lifted entirely. -/
def didIncreaseResolution (restrictions_before restrictions_after :
    VideoSourceRestrictions) : Bool :=
  match restrictions_before.max_pixels_per_frame,
      restrictions_after.max_pixels_per_frame with
  | some b, some a => b < a
  | some _, none => true
  | none, _ => false

/-- The part of `EncoderSettings` the bitrate constraint consumes: the
minimum start bitrate the encoder configuration requires for a given
resolution (in pixels), absent when the configuration states no limit for
that resolution. -/
structure EncoderSettingsModel where
  min_start_bitrate_for_resolution : Nat → Option Nat

/-- The configuration cache of
`VideoStreamEncoderResourceManager::BitrateConstraint`: optional encoder
settings and optional encoder target bitrate, both absent until
configured. -/
structure BitrateConstraintState where
  encoder_settings_ : Option EncoderSettingsModel
  encoder_target_bitrate_bps_ : Option Nat

/-- Modelled from the spec: the body of
`BitrateConstraint::IsAdaptationUpAllowed` is not in the header. Per spec
section 4.3 it disallows upward resolution adaptation when the current
target bitrate is below the minimum bitrate the encoder configuration
requires for the resolution that would result, and allows everything else;
absent encoder settings or absent target bitrate mean allow (fail open). -/
def BitrateConstraint.IsAdaptationUpAllowed (st : BitrateConstraintState)
    (input_state : VideoStreamInputState)
    (restrictions_before restrictions_after : VideoSourceRestrictions)
    (reason_resource : ResourceId) : Bool :=
  match st.encoder_settings_, st.encoder_target_bitrate_bps_ with
  | some settings, some target_bitrate_bps =>
    if didIncreaseResolution restrictions_before restrictions_after then
      match settings.min_start_bitrate_for_resolution
          (restrictions_after.max_pixels_per_frame.getD
            (input_state.frame_size_pixels.getD 0)) with
      | some min_start_bitrate_bps =>
        min_start_bitrate_bps ≤ target_bitrate_bps
      | none => true
    else true
  | _, _ => true

/-- `DegradationPreference`: which dimensions adaptation may affect
(`api/rtp_parameters.h`). -/
inductive DegradationPreference where
  | DISABLED
  | MAINTAIN_FRAMERATE
  | MAINTAIN_RESOLUTION
  | BALANCED
deriving DecidableEq

/-- The part of `BalancedDegradationSettings` the balanced constraint
consumes: whether the combination resulting from the adaptation stays
within the configured per-resolution minimum-bitrate and frame-rate caps,
keyed by frame size and current target bitrate. -/
structure BalancedSettingsModel where
  can_adapt_up : Nat → Nat → Bool
  can_adapt_up_resolution : Nat → Nat → Bool

/-- The state `BalancedConstraint::IsAdaptationUpAllowed` reads: the
manager's current degradation preference, the balanced settings table, and
the cached optional target bitrate. -/
structure BalancedConstraintState where
  degradation_preference : DegradationPreference
  balanced_settings_ : BalancedSettingsModel
  encoder_target_bitrate_bps_ : Option Nat

/-- Modelled from the spec: the body of
`BalancedConstraint::IsAdaptationUpAllowed` is not in the header. Per spec
section 4.3 the constraint applies only under the balanced degradation
preference, where it disallows upward adaptation when the resulting
combination's minimum required bitrate exceeds the current target bitrate
or the implied frame-rate increase exceeds the per-resolution cap; under
any other preference it allows. -/
def BalancedConstraint.IsAdaptationUpAllowed (st : BalancedConstraintState)
    (input_state : VideoStreamInputState)
    (restrictions_before restrictions_after : VideoSourceRestrictions)
    (reason_resource : ResourceId) : Bool :=
  if st.degradation_preference = DegradationPreference.BALANCED then
    st.balanced_settings_.can_adapt_up
      (input_state.frame_size_pixels.getD 0)
      (st.encoder_target_bitrate_bps_.getD 0) &&
    (!didIncreaseResolution restrictions_before restrictions_after ||
      st.balanced_settings_.can_adapt_up_resolution
        (input_state.frame_size_pixels.getD 0)
        (st.encoder_target_bitrate_bps_.getD 0))
  else true

/-- The started-ness of the two managed resources, the encode-usage
resource and the quality-scaler resource. -/
structure ManagedResourcesState where
  encode_usage_resource_started : Bool
  quality_scaler_resource_started : Bool
deriving DecidableEq

/-- A resource's stop operation: stops it if not already stopped; stopping
a stopped resource leaves it stopped and does not fail. -/
def stopIfStarted (started : Bool) : Bool :=
  if started then false else started

/-- Modelled from the spec: the body of
`VideoStreamEncoderResourceManager::StopManagedResources` is not in the
header. Per the header comment it stops the encode usage and quality
scaler resources if not already stopped. -/
def StopManagedResources (st : ManagedResourcesState) :
    ManagedResourcesState :=
  { encode_usage_resource_started :=
      stopIfStarted st.encode_usage_resource_started
    quality_scaler_resource_started :=
      stopIfStarted st.quality_scaler_resource_started }

/-- Modelled from the spec: the header only externs
`kDefaultInputPixelsWidth`; its comment fixes the assumed input frame size
to 144p, whose width is 176 pixels. -/
def kDefaultInputPixelsWidth : Nat := 176

/-- Modelled from the spec: the header only externs
`kDefaultInputPixelsHeight`; its comment fixes the assumed input frame size
to 144p, whose height is 144 pixels. -/
def kDefaultInputPixelsHeight : Nat := 144

/-- Modelled from the spec: the body of
`VideoStreamEncoderResourceManager::LastInputFrameSizeOrDefault` is not in
the header. Per spec section 3 it returns the last-seen input frame size in
pixels, defaulted to the fixed 144p-equivalent size when no frame has
arrived yet. -/
def LastInputFrameSizeOrDefault (input_state : VideoStreamInputState) :
    Nat :=
  input_state.frame_size_pixels.getD
    (kDefaultInputPixelsWidth * kDefaultInputPixelsHeight)

/-- Modelled from the spec: the Initial Frame Dropper's threshold decision
(is the current bitrate sufficient for the frame size) is evaluated at the
frame size `LastInputFrameSizeOrDefault` yields; the sufficiency predicate
itself depends on external bitrate configuration and is abstracted as a
parameter. -/
def initialFrameDropThresholdDecision (bitrate_sufficient_for : Nat → Bool)
    (input_state : VideoStreamInputState) : Bool :=
  bitrate_sufficient_for (LastInputFrameSizeOrDefault input_state)

end Webrtc

namespace Webrtc

/-- One processed notification makes the component-wise sum of the
active-counts table equal the notified total, whatever the prior table
held: `OnAdaptationCountChanged` allocates the whole new total between the
two entries. -/
theorem onVideoSourceRestrictionsUpdated_sum (st : ManagerState)
    (u : RestrictionsUpdate) :
    (OnVideoSourceRestrictionsUpdated st u).active_cpu.resolution_adaptations
      + (OnVideoSourceRestrictionsUpdated st
          u).active_quality.resolution_adaptations =
      u.adaptation_counters.resolution_adaptations ∧
    (OnVideoSourceRestrictionsUpdated st u).active_cpu.fps_adaptations +
      (OnVideoSourceRestrictionsUpdated st
        u).active_quality.fps_adaptations =
      u.adaptation_counters.fps_adaptations := by
  unfold OnVideoSourceRestrictionsUpdated
  cases GetReasonFromResource st.resources_ u.reason_resource <;>
    simp only [OnAdaptationCountChanged] <;> constructor <;> omega

/-- C1: along every sequence of `OnVideoSourceRestrictionsUpdated` calls,
after each notification is processed the component-wise (hence pointwise)
sum over both reasons of the active-counts table equals the total
adaptation counters delivered in the most recent notification; before the
first notification every entry of the table is zero. -/
theorem activeCounts_invariant
    (resources_ : List (ResourceId × VideoAdaptationReason))
    (events : List RestrictionsUpdate) :
    ((initialManagerState resources_).active_cpu = ⟨0, 0⟩ ∧
      (initialManagerState resources_).active_quality = ⟨0, 0⟩) ∧
    (∀ rest last, events = rest ++ [last] →
      (events.foldl OnVideoSourceRestrictionsUpdated
          (initialManagerState resources_)).active_cpu.resolution_adaptations
        + (events.foldl OnVideoSourceRestrictionsUpdated
            (initialManagerState
              resources_)).active_quality.resolution_adaptations =
        last.adaptation_counters.resolution_adaptations ∧
      (events.foldl OnVideoSourceRestrictionsUpdated
          (initialManagerState resources_)).active_cpu.fps_adaptations +
        (events.foldl OnVideoSourceRestrictionsUpdated
          (initialManagerState resources_)).active_quality.fps_adaptations =
        last.adaptation_counters.fps_adaptations) := by
  refine ⟨⟨rfl, rfl⟩, ?_⟩
  intro rest last h
  subst h
  rw [List.foldl_append]
  exact onVideoSourceRestrictionsUpdated_sum _ last

/-- Witness for C1 at a concrete two-notification sequence: resource 7 is
mapped to quality, the second notification reports total (1, 0); the final
table sums to that total. -/
theorem activeCounts_invariant_witness :
    ((initialManagerState
        [(7, VideoAdaptationReason.kQuality)]).active_cpu = ⟨0, 0⟩ ∧
      (initialManagerState
        [(7, VideoAdaptationReason.kQuality)]).active_quality = ⟨0, 0⟩) ∧
    (([⟨⟨some 1000, none⟩, ⟨2, 0⟩, 7⟩,
        ⟨⟨some 2000, none⟩, ⟨1, 0⟩, 7⟩] :
          List RestrictionsUpdate).foldl OnVideoSourceRestrictionsUpdated
        (initialManagerState
          [(7, VideoAdaptationReason.kQuality)])).active_cpu.resolution_adaptations
      + (([⟨⟨some 1000, none⟩, ⟨2, 0⟩, 7⟩,
          ⟨⟨some 2000, none⟩, ⟨1, 0⟩, 7⟩] :
            List RestrictionsUpdate).foldl OnVideoSourceRestrictionsUpdated
          (initialManagerState
            [(7, VideoAdaptationReason.kQuality)])).active_quality.resolution_adaptations
      = 1 := by
  have h := activeCounts_invariant [(7, VideoAdaptationReason.kQuality)]
    [⟨⟨some 1000, none⟩, ⟨2, 0⟩, 7⟩, ⟨⟨some 2000, none⟩, ⟨1, 0⟩, 7⟩]
  exact ⟨h.1, (h.2 [⟨⟨some 1000, none⟩, ⟨2, 0⟩, 7⟩]
    ⟨⟨some 2000, none⟩, ⟨1, 0⟩, 7⟩ rfl).1⟩

/-- C2: `OnAdaptationCountChanged` is a pure static transform. For every
new total counter value and previous per-reason counters, all components
non-negative: (1) the two outputs sum, component-wise and hence in total,
to the new total; (2) when no component of the causing reason's updated
count would go negative, the entire delta is attributed to the causing
reason and the other count is unchanged; (3) no output component is
negative; (4) a component of the causing reason's count that would become
negative is clamped to exactly zero, with the remainder (the negative
updated value) attributed to the other reason's component. Totality (the
function never fails) is inherent: it is a total Lean function. -/
theorem onAdaptationCountChanged_spec
    (adaptation_count active_count other_active : VideoAdaptationCounters)
    (hTotRes : 0 ≤ adaptation_count.resolution_adaptations)
    (hTotFps : 0 ≤ adaptation_count.fps_adaptations)
    (hActRes : 0 ≤ active_count.resolution_adaptations)
    (hActFps : 0 ≤ active_count.fps_adaptations)
    (hOthRes : 0 ≤ other_active.resolution_adaptations)
    (hOthFps : 0 ≤ other_active.fps_adaptations) :
    ((OnAdaptationCountChanged adaptation_count active_count
        other_active).1.resolution_adaptations +
      (OnAdaptationCountChanged adaptation_count active_count
        other_active).2.resolution_adaptations =
      adaptation_count.resolution_adaptations) ∧
    ((OnAdaptationCountChanged adaptation_count active_count
        other_active).1.fps_adaptations +
      (OnAdaptationCountChanged adaptation_count active_count
        other_active).2.fps_adaptations =
      adaptation_count.fps_adaptations) ∧
    ((OnAdaptationCountChanged adaptation_count active_count
        other_active).1.Total +
      (OnAdaptationCountChanged adaptation_count active_count
        other_active).2.Total =
      adaptation_count.Total) ∧
    (0 ≤ active_count.resolution_adaptations +
        (adaptation_count.resolution_adaptations -
          (active_count.resolution_adaptations +
            other_active.resolution_adaptations)) →
      0 ≤ active_count.fps_adaptations +
        (adaptation_count.fps_adaptations -
          (active_count.fps_adaptations + other_active.fps_adaptations)) →
      (OnAdaptationCountChanged adaptation_count active_count
        other_active).2 = other_active) ∧
    (0 ≤ (OnAdaptationCountChanged adaptation_count active_count
        other_active).1.resolution_adaptations) ∧
    (0 ≤ (OnAdaptationCountChanged adaptation_count active_count
        other_active).1.fps_adaptations) ∧
    (0 ≤ (OnAdaptationCountChanged adaptation_count active_count
        other_active).2.resolution_adaptations) ∧
    (0 ≤ (OnAdaptationCountChanged adaptation_count active_count
        other_active).2.fps_adaptations) ∧
    (active_count.resolution_adaptations +
        (adaptation_count.resolution_adaptations -
          (active_count.resolution_adaptations +
            other_active.resolution_adaptations)) < 0 →
      (OnAdaptationCountChanged adaptation_count active_count
        other_active).1.resolution_adaptations = 0 ∧
      (OnAdaptationCountChanged adaptation_count active_count
        other_active).2.resolution_adaptations =
        other_active.resolution_adaptations +
          (active_count.resolution_adaptations +
            (adaptation_count.resolution_adaptations -
              (active_count.resolution_adaptations +
                other_active.resolution_adaptations)))) ∧
    (active_count.fps_adaptations +
        (adaptation_count.fps_adaptations -
          (active_count.fps_adaptations +
            other_active.fps_adaptations)) < 0 →
      (OnAdaptationCountChanged adaptation_count active_count
        other_active).1.fps_adaptations = 0 ∧
      (OnAdaptationCountChanged adaptation_count active_count
        other_active).2.fps_adaptations =
        other_active.fps_adaptations +
          (active_count.fps_adaptations +
            (adaptation_count.fps_adaptations -
              (active_count.fps_adaptations +
                other_active.fps_adaptations)))) := by
  simp only [OnAdaptationCountChanged, VideoAdaptationCounters.Total]
  refine ⟨by omega, by omega, by omega, ?hnoclamp, by omega, by omega,
    by omega, by omega, ?hclampres, ?hclampfps⟩
  case hclampres =>
    intro h
    exact ⟨by omega, by omega⟩
  case hclampfps =>
    intro h
    exact ⟨by omega, by omega⟩
  intro h1 h2
  have e1 : max (active_count.resolution_adaptations +
      (adaptation_count.resolution_adaptations -
        (active_count.resolution_adaptations +
          other_active.resolution_adaptations))) 0 =
      active_count.resolution_adaptations +
      (adaptation_count.resolution_adaptations -
        (active_count.resolution_adaptations +
          other_active.resolution_adaptations)) := by omega
  have e2 : min (active_count.resolution_adaptations +
      (adaptation_count.resolution_adaptations -
        (active_count.resolution_adaptations +
          other_active.resolution_adaptations))) 0 = 0 := by omega
  have e3 : min (active_count.fps_adaptations +
      (adaptation_count.fps_adaptations -
        (active_count.fps_adaptations + other_active.fps_adaptations))) 0 =
      0 := by omega
  simp [e2, e3]

/-- Witness for C2, at the spec's concrete example: previous counts
CPU = 2 (as resolution reductions), Quality = 1, new total 2, causing
reason CPU; the example's stated outcome, CPU ≤ 2 and CPU + Quality = 2,
is evaluated directly. A second application at new total 2, causing
count 0, other count 3 exercises the clamp case: the causing component is
clamped to exactly zero and the remainder lands on the other reason. The
hypotheses are discharged by `decide`. -/
theorem onAdaptationCountChanged_spec_witness :
    (((OnAdaptationCountChanged ⟨2, 0⟩ ⟨2, 0⟩
        ⟨1, 0⟩).1.resolution_adaptations +
      (OnAdaptationCountChanged ⟨2, 0⟩ ⟨2, 0⟩
        ⟨1, 0⟩).2.resolution_adaptations =
      (2 : Int)) ∧
    (0 ≤ (OnAdaptationCountChanged ⟨2, 0⟩ ⟨2, 0⟩
        ⟨1, 0⟩).1.resolution_adaptations)) ∧
    ((OnAdaptationCountChanged ⟨2, 0⟩ ⟨2, 0⟩ ⟨1, 0⟩).1.Total ≤ 2 ∧
    (OnAdaptationCountChanged ⟨2, 0⟩ ⟨2, 0⟩ ⟨1, 0⟩).1.Total +
      (OnAdaptationCountChanged ⟨2, 0⟩ ⟨2, 0⟩ ⟨1, 0⟩).2.Total = 2) ∧
    (OnAdaptationCountChanged ⟨2, 0⟩ ⟨0, 0⟩
      ⟨3, 0⟩).1.resolution_adaptations = 0 ∧
    (OnAdaptationCountChanged ⟨2, 0⟩ ⟨0, 0⟩
      ⟨3, 0⟩).2.resolution_adaptations = 2 := by
  have h := onAdaptationCountChanged_spec ⟨2, 0⟩ ⟨2, 0⟩ ⟨1, 0⟩
    (by decide) (by decide) (by decide) (by decide) (by decide) (by decide)
  have hc := (onAdaptationCountChanged_spec ⟨2, 0⟩ ⟨0, 0⟩ ⟨3, 0⟩
    (by decide) (by decide) (by decide) (by decide) (by decide)
    (by decide)).2.2.2.2.2.2.2.2.1 (by decide)
  exact ⟨⟨h.1, h.2.2.2.2.1⟩, ⟨by decide, by decide⟩, hc.1,
    by simpa using hc.2⟩

/-- A single dropper step never enters DROPPING from another state. -/
theorem dropperStep_no_reentry (s : InitialFrameDropperState)
    (e : DropperEvent) (h : s ≠ InitialFrameDropperState.DROPPING) :
    dropperStep s e ≠ InitialFrameDropperState.DROPPING := by
  cases s <;> simp_all [dropperStep]

/-- C3: the Initial Frame Dropper's NOT_DROPPING state is terminal. For
every state in which the dropper is no longer dropping and every sequence
of pipeline events applied afterwards, `DropInitialFrames` never returns
true again; and `DropInitialFrames` returns true exactly when the state is
DROPPING. -/
theorem dropInitialFrames_terminal (s : InitialFrameDropperState)
    (h : DropInitialFrames s = false) (events : List DropperEvent) :
    DropInitialFrames (events.foldl dropperStep s) = false ∧
    (∀ t : InitialFrameDropperState,
      DropInitialFrames t = true ↔ t = InitialFrameDropperState.DROPPING) := by
  constructor
  · have hne : s ≠ InitialFrameDropperState.DROPPING := by
      intro hs
      rw [hs] at h
      simp [DropInitialFrames] at h
    have : ∀ (es : List DropperEvent) (t : InitialFrameDropperState),
        t ≠ InitialFrameDropperState.DROPPING →
        es.foldl dropperStep t ≠ InitialFrameDropperState.DROPPING := by
      intro es
      induction es with
      | nil => intro t ht; simpa using ht
      | cons e rest ih =>
        intro t ht
        rw [List.foldl_cons]
        exact ih _ (dropperStep_no_reentry t e ht)
    simp [DropInitialFrames, this events s hne]
  · intro t
    cases t <;> simp [DropInitialFrames]

/-- Witness for C3: from NOT_DROPPING, a concrete event sequence ending in
a size-based drop still reports no initial-frame dropping. -/
theorem dropInitialFrames_terminal_witness :
    DropInitialFrames
      (([DropperEvent.onFrameDroppedDueToSize,
        DropperEvent.onFrameDropped false,
        DropperEvent.onMaybeEncodeFrame] : List DropperEvent).foldl
          dropperStep InitialFrameDropperState.NOT_DROPPING) = false ∧
    (∀ t : InitialFrameDropperState,
      DropInitialFrames t = true ↔ t = InitialFrameDropperState.DROPPING) :=
  dropInitialFrames_terminal InitialFrameDropperState.NOT_DROPPING
    (by decide)
    [DropperEvent.onFrameDroppedDueToSize, DropperEvent.onFrameDropped false,
      DropperEvent.onMaybeEncodeFrame]

/-- Appending a fresh mapping is found by the linear search when the
resource was not previously mapped. -/
theorem findReason_append_of_none
    (st : List (ResourceId × VideoAdaptationReason)) (r : ResourceId)
    (x : VideoAdaptationReason) (h : findReason st r = none) :
    findReason (st ++ [(r, x)]) r = some x := by
  induction st with
  | nil => simp [findReason]
  | cons p rest ih =>
    obtain ⟨k, v⟩ := p
    rw [List.cons_append]
    by_cases hk : k = r
    · simp [findReason, hk] at h
    · simp only [findReason, hk, if_false] at h ⊢
      exact ih h

/-- C4: `GetReasonFromResource` is a total round-trip query. If mapping a
resource to reason X via `MapResourceToReason` succeeds, querying that
resource afterwards returns X; and querying a resource that was never
mapped returns the defined default reason, CPU, without failing (the query
is a total function). -/
theorem getReasonFromResource_spec
    (st st' : List (ResourceId × VideoAdaptationReason)) (r : ResourceId)
    (x : VideoAdaptationReason) :
    (MapResourceToReason st r x = Except.ok st' →
      GetReasonFromResource st' r = x) ∧
    (findReason st r = none →
      GetReasonFromResource st r = VideoAdaptationReason.kCpu) := by
  constructor
  · intro h
    unfold MapResourceToReason at h
    cases hf : findReason st r with
    | some existing =>
      rw [hf] at h
      by_cases hex : existing = x
      · simp only [hex, if_true] at h
        cases h
        simp [GetReasonFromResource, hf, hex]
      · simp [hex] at h
    | none =>
      rw [hf] at h
      cases h
      simp [GetReasonFromResource, findReason_append_of_none st r x hf]
  · intro h
    simp [GetReasonFromResource, h]

/-- Witness for C4: mapping resource 5 to quality in an empty registry and
reading it back, and reading back unmapped resource 9. -/
theorem getReasonFromResource_spec_witness :
    (MapResourceToReason [] 5 VideoAdaptationReason.kQuality =
        Except.ok [(5, VideoAdaptationReason.kQuality)] →
      GetReasonFromResource [(5, VideoAdaptationReason.kQuality)] 5 =
        VideoAdaptationReason.kQuality) ∧
    (findReason [] 9 = none →
      GetReasonFromResource [] 9 = VideoAdaptationReason.kCpu) :=
  ⟨fun h => (getReasonFromResource_spec []
      [(5, VideoAdaptationReason.kQuality)] 5
      VideoAdaptationReason.kQuality).1 h,
    fun h => (getReasonFromResource_spec [] [] 9
      VideoAdaptationReason.kQuality).2 h⟩

/-- C8: calling `MapResourceToReason` a second time for a resource already
mapped, with a reason different from the registered one, fails immediately
with the invalid-argument contract-violation error. -/
theorem mapResourceToReason_double_map_fails
    (st : List (ResourceId × VideoAdaptationReason)) (r : ResourceId)
    (x y : VideoAdaptationReason) (h : findReason st r = some x)
    (hxy : x ≠ y) :
    MapResourceToReason st r y =
      Except.error ContractViolation.invalidArgument := by
  simp [MapResourceToReason, h, hxy]

/-- Witness for C8: resource 3 is mapped to CPU; remapping it to quality
fails with the invalid-argument error. -/
theorem mapResourceToReason_double_map_fails_witness :
    MapResourceToReason [(3, VideoAdaptationReason.kCpu)] 3
      VideoAdaptationReason.kQuality =
      Except.error ContractViolation.invalidArgument :=
  mapResourceToReason_double_map_fails [(3, VideoAdaptationReason.kCpu)] 3
    VideoAdaptationReason.kCpu VideoAdaptationReason.kQuality (by decide)
    (by decide)

/-- Once the rampup latch is set, every further evaluation of the
experiment leaves the state untouched. -/
theorem rampup_fold_fixed (st : RampupState)
    (h : st.quality_rampup_done_ = true) (more : List RampupCondition) :
    more.foldl MaybePerformQualityRampupExperiment st = st := by
  induction more with
  | nil => rfl
  | cons c rest ih =>
    rw [List.foldl_cons]
    have hstep : MaybePerformQualityRampupExperiment st c = st := by
      simp [MaybePerformQualityRampupExperiment, h]
    rw [hstep]
    exact ih

/-- C5: the quality rampup experiment fires at most once per manager
lifetime. From the initial state, every sequence of trigger-condition
evaluations requests at most one full restriction reset; and once the
latch `quality_rampup_done_` is set, no later evaluation, even with the
condition still true, changes the state or performs a second reset. -/
theorem qualityRampup_at_most_once (conds : List RampupCondition) :
    (conds.foldl MaybePerformQualityRampupExperiment
      initialRampupState).reset_requests ≤ 1 ∧
    (∀ st : RampupState, st.quality_rampup_done_ = true →
      ∀ more : List RampupCondition,
        more.foldl MaybePerformQualityRampupExperiment st = st) := by
  constructor
  · induction conds with
    | nil => simp [initialRampupState]
    | cons c rest ih =>
      rw [List.foldl_cons]
      by_cases hc : (c.experiment_enabled && c.min_duration_passed &&
          c.bwe_exceeds_target_by_margin) = true
      · have hstep : MaybePerformQualityRampupExperiment initialRampupState c
            = ⟨true, 1⟩ := by
          simp [MaybePerformQualityRampupExperiment, initialRampupState, hc]
        rw [hstep, rampup_fold_fixed ⟨true, 1⟩ rfl rest]
      · have hstep : MaybePerformQualityRampupExperiment initialRampupState c
            = initialRampupState := by
          simp [MaybePerformQualityRampupExperiment, initialRampupState, hc]
        rw [hstep]
        exact ih
  · exact fun st h more => rampup_fold_fixed st h more

/-- Witness for C5: two evaluations with the full condition true request
exactly at most one reset, and with the latch already set an evaluation
with the condition true changes nothing. -/
theorem qualityRampup_at_most_once_witness :
    (([⟨true, true, true⟩, ⟨true, true, true⟩] :
        List RampupCondition).foldl MaybePerformQualityRampupExperiment
      initialRampupState).reset_requests ≤ 1 ∧
    ([⟨true, true, true⟩] : List RampupCondition).foldl
        MaybePerformQualityRampupExperiment ⟨true, 1⟩ = ⟨true, 1⟩ := by
  have h := qualityRampup_at_most_once
    [⟨true, true, true⟩, ⟨true, true, true⟩]
  exact ⟨h.1, h.2 ⟨true, 1⟩ rfl [⟨true, true, true⟩]⟩

/-- C6: the bitrate constraint fails open. For every input state,
restrictions pair and causing resource, if the encoder settings are absent
or the encoder target bitrate is absent then
`BitrateConstraint::IsAdaptationUpAllowed` returns true. -/
theorem bitrateConstraint_fails_open (st : BitrateConstraintState)
    (input_state : VideoStreamInputState)
    (restrictions_before restrictions_after : VideoSourceRestrictions)
    (reason_resource : ResourceId)
    (h : st.encoder_settings_ = none ∨
      st.encoder_target_bitrate_bps_ = none) :
    BitrateConstraint.IsAdaptationUpAllowed st input_state
      restrictions_before restrictions_after reason_resource = true := by
  rcases h with h | h
  · cases ht : st.encoder_target_bitrate_bps_ <;>
      simp [BitrateConstraint.IsAdaptationUpAllowed, h, ht]
  · cases hs : st.encoder_settings_ <;>
      simp [BitrateConstraint.IsAdaptationUpAllowed, h, hs]

/-- Witness for C6: no encoder settings configured, a target bitrate
present, and a resolution-increasing restriction change still yields
allow. -/
theorem bitrateConstraint_fails_open_witness :
    BitrateConstraint.IsAdaptationUpAllowed ⟨none, some 300000⟩
      ⟨some 25344, 30⟩ ⟨some 1000, some 30⟩ ⟨some 2000, some 30⟩ 1 =
      true :=
  bitrateConstraint_fails_open ⟨none, some 300000⟩ ⟨some 25344, 30⟩
    ⟨some 1000, some 30⟩ ⟨some 2000, some 30⟩ 1 (Or.inl rfl)

/-- C7: the balanced constraint is inactive outside balanced mode. For
every input state, restrictions pair and causing resource, if the current
degradation preference is not BALANCED then
`BalancedConstraint::IsAdaptationUpAllowed` returns true. -/
theorem balancedConstraint_inactive_outside_balanced
    (st : BalancedConstraintState) (input_state : VideoStreamInputState)
    (restrictions_before restrictions_after : VideoSourceRestrictions)
    (reason_resource : ResourceId)
    (h : st.degradation_preference ≠ DegradationPreference.BALANCED) :
    BalancedConstraint.IsAdaptationUpAllowed st input_state
      restrictions_before restrictions_after reason_resource = true := by
  simp [BalancedConstraint.IsAdaptationUpAllowed, h]

/-- Witness for C7: under MAINTAIN_FRAMERATE, with balanced settings that
would veto everything, the constraint still allows. -/
theorem balancedConstraint_inactive_outside_balanced_witness :
    BalancedConstraint.IsAdaptationUpAllowed
      ⟨DegradationPreference.MAINTAIN_FRAMERATE,
        ⟨fun _ _ => false, fun _ _ => false⟩, some 100000⟩
      ⟨some 25344, 30⟩ ⟨some 1000, some 30⟩ ⟨some 2000, some 30⟩ 2 =
      true :=
  balancedConstraint_inactive_outside_balanced
    ⟨DegradationPreference.MAINTAIN_FRAMERATE,
      ⟨fun _ _ => false, fun _ _ => false⟩, some 100000⟩
    ⟨some 25344, 30⟩ ⟨some 1000, some 30⟩ ⟨some 2000, some 30⟩ 2
    (by decide)

/-- C9: `StopManagedResources` is idempotent. For every manager state,
calling it twice leaves the state exactly as calling it once, and after a
call both managed resources are stopped; the operation is a total
function, so a second call on already-stopped resources does not fail. -/
theorem stopManagedResources_idempotent (st : ManagedResourcesState) :
    StopManagedResources (StopManagedResources st) =
      StopManagedResources st ∧
    (StopManagedResources st).encode_usage_resource_started = false ∧
    (StopManagedResources st).quality_scaler_resource_started = false := by
  obtain ⟨e, q⟩ := st
  cases e <;> cases q <;> exact ⟨rfl, rfl, rfl⟩

/-- C10: before any input frame has been received,
`LastInputFrameSizeOrDefault` returns exactly `kDefaultInputPixelsWidth`
times `kDefaultInputPixelsHeight` (the 144p-equivalent constants, 25344
pixels), and the Initial Frame Dropper's threshold decision is evaluated
at exactly that frame size, whatever the sufficiency predicate. -/
theorem lastInputFrameSizeOrDefault_default
    (input_state : VideoStreamInputState)
    (h : input_state.frame_size_pixels = none) :
    LastInputFrameSizeOrDefault input_state =
      kDefaultInputPixelsWidth * kDefaultInputPixelsHeight ∧
    kDefaultInputPixelsWidth * kDefaultInputPixelsHeight = 25344 ∧
    (∀ bitrate_sufficient_for : Nat → Bool,
      initialFrameDropThresholdDecision bitrate_sufficient_for input_state =
        bitrate_sufficient_for
          (kDefaultInputPixelsWidth * kDefaultInputPixelsHeight)) := by
  refine ⟨?_, rfl, ?_⟩
  · simp [LastInputFrameSizeOrDefault, h]
  · intro f
    simp [initialFrameDropThresholdDecision, LastInputFrameSizeOrDefault, h]

/-- Witness for C10: an input state with no frame seen yet and frame rate
30; the default size is used by a concrete sufficiency predicate. -/
theorem lastInputFrameSizeOrDefault_default_witness :
    LastInputFrameSizeOrDefault ⟨none, 30⟩ =
      kDefaultInputPixelsWidth * kDefaultInputPixelsHeight ∧
    initialFrameDropThresholdDecision (fun n => n ≤ 30000) ⟨none, 30⟩ =
      decide (kDefaultInputPixelsWidth * kDefaultInputPixelsHeight ≤
        30000) := by
  have h := lastInputFrameSizeOrDefault_default ⟨none, 30⟩ rfl
  exact ⟨h.1, h.2.2 (fun n => n ≤ 30000)⟩

end Webrtc
